import Mathlib

/-!
Shallow embedding of the BingusSpoingus content pipeline.

Source files embedded here:
 - src/src/web_search.py   (BlaxelSearchMCPClient.search and its helpers)
 - src/src/script_maker.py (fetch_webpage and the four synthesizer variants)

Python dynamic values exchanged with the remote services are modelled by the
inductive type JVal (JSON-shaped data: None, bool, number, str, list, dict).
Numbers are modelled as rationals; CPython float-to-text formatting is
abstracted by pyNumStr (only its non-emptiness is ever relied upon).
External I/O (the HTTP round trip, the page fetch, the LLM completion call)
is modelled by passing the observable outcome of each call as an explicit
argument; exceptions are modelled with Except, and a handler that catches
them corresponds to a match on the Except value.
-/

/-- A JSON-shaped Python value: None, bool, float, str, list or dict.
Dicts are association lists; Python dicts have unique keys, and lookup
takes the first binding, which agrees on such lists. -/
inductive JVal where
  | jnull
  | jbool (b : Bool)
  | jnum (q : ℚ)
  | jstr (s : String)
  | jarr (xs : List JVal)
  | jobj (fields : List (String × JVal))

namespace JVal

/-- Python truthiness of a JSON-shaped value (bool(v)). -/
def truthy : JVal → Bool
  | .jnull => false
  | .jbool b => b
  | .jnum q => !(q == 0)
  | .jstr s => !(s == "")
  | .jarr xs => !xs.isEmpty
  | .jobj fs => !fs.isEmpty

end JVal

/-- Python `a or b` on values: `a` when truthy, else `b`. -/
def pyOr (a b : JVal) : JVal := if a.truthy then a else b

/-- Python `d.get(k)`: the bound value, or None when the key is absent. -/
def pyGet (fs : List (String × JVal)) (k : String) : JVal :=
  (fs.lookup k).getD .jnull

/-- Python `d.get(k, dflt)`: the bound value, or `dflt` when the key is absent. -/
def pyGetD (fs : List (String × JVal)) (k : String) (d : JVal) : JVal :=
  (fs.lookup k).getD d

/-- Abstraction of CPython float formatting `str(q)` for a number; only its
non-emptiness matters anywhere in this development. -/
def pyNumStr (q : ℚ) : String :=
  toString q.num ++ (if q.den = 1 then ".0" else "/" ++ toString q.den)

mutual
/-- Python `repr` of a JSON-shaped value (used by str() inside containers). -/
def pyRepr : JVal → String
  | .jnull => "None"
  | .jbool true => "True"
  | .jbool false => "False"
  | .jnum q => pyNumStr q
  | .jstr s => "\x27" ++ s ++ "\x27"
  | .jarr xs => "[" ++ pyReprSeq xs ++ "]"
  | .jobj fs => "\x7b" ++ pyReprFields fs ++ "\x7d"

/-- Comma-separated reprs of the elements of a Python list. -/
def pyReprSeq : List JVal → String
  | [] => ""
  | [v] => pyRepr v
  | v :: vs => pyRepr v ++ ", " ++ pyReprSeq vs

/-- Comma-separated `key: value` reprs of the items of a Python dict. -/
def pyReprFields : List (String × JVal) → String
  | [] => ""
  | [(k, v)] => "\x27" ++ k ++ "\x27: " ++ pyRepr v
  | (k, v) :: fs => "\x27" ++ k ++ "\x27: " ++ pyRepr v ++ ", " ++ pyReprFields fs
end

/-- Python `str(v)` of a JSON-shaped value. -/
def pyStr : JVal → String
  | .jstr s => s
  | v => pyRepr v

/-- Python string slicing `s[:n]` (counts code points, like Lean Chars). -/
def pyTruncate (s : String) (n : ℕ) : String := ⟨s.data.take n⟩

/-- Numeric value of decimal digits. -/
def digitsVal (cs : List Char) : ℕ :=
  cs.foldl (fun n c => 10 * n + (c.toNat - 48)) 0

/-- Optional exponent tail `e±ddd` of a float literal; the whole remainder
must be consumed. -/
def floatExpTail (m : ℚ) (r : List Char) : Option ℚ :=
  let p : Bool × List Char :=
    match r with
    | '-' :: t => (true, t)
    | '+' :: t => (false, t)
    | _ => (false, r)
  let ed := p.2.takeWhile Char.isDigit
  let rest := p.2.dropWhile Char.isDigit
  if ed.isEmpty || !rest.isEmpty then none
  else some (if p.1 then m / 10 ^ digitsVal ed else m * 10 ^ digitsVal ed)

/-- Python `float(s)` on a string: optional surrounding whitespace, optional
sign, digits with an optional point and exponent. Exotic accepted forms
(inf, nan, underscores) are not modelled. none models a raised ValueError. -/
def pyFloatOfString (s : String) : Option ℚ :=
  let cs := ((s.data.dropWhile Char.isWhitespace).reverse.dropWhile
    Char.isWhitespace).reverse
  let p : Bool × List Char :=
    match cs with
    | '-' :: t => (true, t)
    | '+' :: t => (false, t)
    | _ => (false, cs)
  let mk : ℚ → Option ℚ := fun m => some (if p.1 then -m else m)
  let ip := p.2.takeWhile Char.isDigit
  let r1 := p.2.dropWhile Char.isDigit
  match r1 with
  | [] => if ip.isEmpty then none else mk (digitsVal ip)
  | '.' :: r2 =>
    let fp := r2.takeWhile Char.isDigit
    let r3 := r2.dropWhile Char.isDigit
    if ip.isEmpty && fp.isEmpty then none
    else
      let m : ℚ := (digitsVal ip : ℚ) + (digitsVal fp : ℚ) / 10 ^ fp.length
      match r3 with
      | [] => mk m
      | _ => (floatExpTail m r3).bind mk
  | _ =>
    if ip.isEmpty then none
    else (floatExpTail (digitsVal ip) r1).bind mk

/-- Python `float(v)` on JSON-shaped values: numbers pass through, booleans
become 0/1, numeric strings are parsed; anything else raises (none). -/
def pyFloat : JVal → Option ℚ
  | .jnum q => some q
  | .jbool b => some (if b then 1 else 0)
  | .jstr s => pyFloatOfString s
  | _ => none

/-- Whether `sub` occurs as a substring of `t` (Python `sub in t`). -/
def strContainsSub (t sub : String) : Bool :=
  t.data.tails.any (fun suf => sub.data.isPrefixOf suf)

/-- Python `k in v` for a string key: dict key test, list membership test,
substring test on strings; raises TypeError (error) on scalars. -/
def pyContains (v : JVal) (k : String) : Except String Bool :=
  match v with
  | .jobj fs => .ok (fs.lookup k).isSome
  | .jarr xs => .ok (xs.any (fun x =>
      match x with
      | .jstr t => t == k
      | _ => false))
  | .jstr t => .ok (strContainsSub t k)
  | _ => .error "TypeError: argument is not iterable"

/-! ## json.loads

A fuel-indexed recursive-descent JSON parser modelling `json.loads`.
The fuel is the input length plus one; each recursive step consumes at
least one character, so the fuel never runs out on real input. -/

/-- Skip JSON whitespace. -/
def jskipWs (cs : List Char) : List Char :=
  cs.dropWhile (fun c => [' ', '\t', '\n', '\r'].contains c)

/-- The two-character JSON string escapes as a lookup table: each escape
letter with the character it denotes. -/
def jescapeTable : List (Char × Char) :=
  [('"', '"'), ('\\', '\\'), ('/', '/'), ('n', '\n'), ('t', '\t'),
   ('r', '\r'), ('b', Char.ofNat 8), ('f', Char.ofNat 12)]

/-- JSON string escape characters (the \uXXXX form is not modelled). -/
def jescape (c : Char) : Option Char := jescapeTable.lookup c

/-- Parse the body of a JSON string after its opening quote. -/
def jparseStringBody : List Char → Option (String × List Char)
  | [] => none
  | '"' :: rest => some ("", rest)
  | '\\' :: e :: rest =>
    match jescape e with
    | some c => (jparseStringBody rest).map (fun p => (⟨c :: p.1.data⟩, p.2))
    | none => none
  | c :: rest => (jparseStringBody rest).map (fun p => (⟨c :: p.1.data⟩, p.2))

/-- Characters that may appear in a JSON number literal. -/
def jnumChar (c : Char) : Bool :=
  c.isDigit || c == '-' || c == '+' || c == '.' || c == 'e' || c == 'E'

/-- Parse a complete JSON number literal from its character span. -/
def jparseNum (cs : List Char) : Option ℚ :=
  let p : Bool × List Char :=
    match cs with
    | '-' :: r => (true, r)
    | _ => (false, cs)
  let ip := p.2.takeWhile Char.isDigit
  let r1 := p.2.dropWhile Char.isDigit
  if ip.isEmpty then none
  else
    let mk : ℚ → Option ℚ := fun m => some (if p.1 then -m else m)
    match r1 with
    | [] => mk (digitsVal ip)
    | '.' :: r2 =>
      let fp := r2.takeWhile Char.isDigit
      let r3 := r2.dropWhile Char.isDigit
      if fp.isEmpty then none
      else
        let m : ℚ := (digitsVal ip : ℚ) + (digitsVal fp : ℚ) / 10 ^ fp.length
        match r3 with
        | [] => mk m
        | _ => (floatExpTail m r3).bind mk
    | _ => (floatExpTail (digitsVal ip) r1).bind mk

mutual
/-- Parse one JSON value; returns it with the unconsumed remainder. -/
def jparseVal : ℕ → List Char → Option (JVal × List Char)
  | 0, _ => none
  | fuel + 1, cs =>
    let cs1 := jskipWs cs
    if ['n', 'u', 'l', 'l'].isPrefixOf cs1 then some (.jnull, cs1.drop 4)
    else if ['t', 'r', 'u', 'e'].isPrefixOf cs1 then
      some (.jbool true, cs1.drop 4)
    else if ['f', 'a', 'l', 's', 'e'].isPrefixOf cs1 then
      some (.jbool false, cs1.drop 5)
    else
      match cs1 with
      | '"' :: r => (jparseStringBody r).map (fun p => (.jstr p.1, p.2))
      | '[' :: r =>
        (match jskipWs r with
         | ']' :: rest => some (.jarr [], rest)
         | r2 => (jparseElems fuel r2).map (fun p => (.jarr p.1, p.2)))
      | '\x7b' :: r =>
        (match jskipWs r with
         | '\x7d' :: rest => some (.jobj [], rest)
         | r2 => (jparseFields fuel r2).map (fun p => (.jobj p.1, p.2)))
      | cs2 =>
        let span := cs2.takeWhile jnumChar
        let rest := cs2.dropWhile jnumChar
        (jparseNum span).map (fun q => (.jnum q, rest))

/-- Parse the comma-separated elements of a JSON array up to `]`. -/
def jparseElems : ℕ → List Char → Option (List JVal × List Char)
  | 0, _ => none
  | fuel + 1, cs => do
    let (v, r) ← jparseVal fuel cs
    match jskipWs r with
    | ',' :: r2 => do
      let (vs, r3) ← jparseElems fuel r2
      pure (v :: vs, r3)
    | ']' :: r2 => pure ([v], r2)
    | _ => none

/-- Parse the comma-separated members of a JSON object up to the brace. -/
def jparseFields : ℕ → List Char → Option (List (String × JVal) × List Char)
  | 0, _ => none
  | fuel + 1, cs =>
    match jskipWs cs with
    | '"' :: r => do
      let (k, r1) ← jparseStringBody r
      match jskipWs r1 with
      | ':' :: r2 => do
        let (v, r3) ← jparseVal fuel r2
        match jskipWs r3 with
        | ',' :: r4 => do
          let (fs, r5) ← jparseFields fuel r4
          pure ((k, v) :: fs, r5)
        | '\x7d' :: r4 => pure ([(k, v)], r4)
        | _ => none
      | _ => none
    | _ => none
end

/-- Python `json.loads`: parse a complete JSON document; trailing data other
than whitespace is rejected; none models a raised JSONDecodeError. -/
def jsonLoads (s : String) : Option JVal :=
  match jparseVal (s.data.length + 1) s.data with
  | some (v, rest) => if (jskipWs rest).isEmpty then some v else none
  | none => none

/-! ## src/src/web_search.py -/

namespace WebSearch

/-- The dataclass `SearchResult` of web_search.py. -/
structure SearchResult where
  title : String
  url : String
  description : String
  relevance_score : ℚ
deriving DecidableEq, Repr

/-- The title fallback chain of `_create_search_result`:
`item.get("title") or item.get("name") or item.get("heading") or "Search Result"`. -/
def titleChain (item : List (String × JVal)) : JVal :=
  pyOr (pyOr (pyOr (pyGet item "title") (pyGet item "name"))
    (pyGet item "heading")) (.jstr "Search Result")

/-- The url fallback chain of `_create_search_result`:
`item.get("url") or item.get("link") or item.get("href") or ""`. -/
def urlChain (item : List (String × JVal)) : JVal :=
  pyOr (pyOr (pyOr (pyGet item "url") (pyGet item "link"))
    (pyGet item "href")) (.jstr "")

/-- The description fallback chain of `_create_search_result`:
`item.get("description") or item.get("snippet") or item.get("summary") or
item.get("content") or ""`. -/
def descChain (item : List (String × JVal)) : JVal :=
  pyOr (pyOr (pyOr (pyOr (pyGet item "description") (pyGet item "snippet"))
    (pyGet item "summary")) (pyGet item "content")) (.jstr "")

/-- The relevance computation of `_create_search_result`:
`float(item.get("relevance_score", 0.0)) or float(item.get("score", 0.0))`.
Python `or` short-circuits: the second float() runs only when the first is
0.0; none models a conversion exception escaping to the handler. -/
def relScoreOf (item : List (String × JVal)) : Option ℚ :=
  match pyFloat (pyGetD item "relevance_score" (.jnum 0)) with
  | none => none
  | some a => if a == 0 then pyFloat (pyGetD item "score" (.jnum 0)) else some a

/-- `BlaxelSearchMCPClient._create_search_result`: extract fields through the
synonym chains, keep the record only if both url and title are truthy,
truncating title to 200 and description to 300 characters; any exception
(a failed float conversion) yields None. -/
def create_search_result (item : List (String × JVal)) : Option SearchResult :=
  match relScoreOf item with
  | none => none
  | some sc =>
    if (urlChain item).truthy && (titleChain item).truthy then
      some { title := pyTruncate (pyStr (titleChain item)) 200
             url := pyStr (urlChain item)
             description := pyTruncate (pyStr (descChain item)) 300
             relevance_score := sc }
    else none

/-- The per-item step of the parsing loops: `isinstance(item, dict)` guards
`_create_search_result`; non-dict items are skipped. -/
def createFromVal : JVal → Option SearchResult
  | .jobj fs => create_search_result fs
  | _ => none

/-- `BlaxelSearchMCPClient._parse_search_results`: accepts a dict with a
`results` list, a dict with a `links` list, a single-result dict with a
`url` key, or a bare list; anything else (including a non-list under
`results`/`links`, whose slicing raises and is caught) yields []. The
`[:max_results]` slice is applied before the validity filtering. -/
def parse_search_results (data : JVal) (maxResults : ℕ) : List SearchResult :=
  match data with
  | .jobj fs =>
    match fs.lookup "results" with
    | some (.jarr items) => (items.take maxResults).filterMap createFromVal
    | some _ => []
    | none =>
      match fs.lookup "links" with
      | some (.jarr items) => (items.take maxResults).filterMap createFromVal
      | some _ => []
      | none =>
        if (fs.lookup "url").isSome then (create_search_result fs).toList
        else []
  | .jarr items => (items.take maxResults).filterMap createFromVal
  | _ => []

/-- `BlaxelSearchMCPClient._parse_text_results`: wrap freeform text into a
single degraded result (empty url, relevance 0.5, description
`text[:300]` plus an ellipsis when the text was longer). -/
def parse_text_results (text query : String) : List SearchResult :=
  [{ title := "Search results for: " ++ query
     url := ""
     description := pyTruncate text 300 ++ (if 300 < text.length then "..." else "")
     relevance_score := 1 / 2 }]

/-- The observable part of the HTTP response to the MCP POST: status code,
raw body text, and the result of `response.json()` (none when the body is
not valid JSON). -/
structure HttpResponse where
  status : ℕ
  text : String
  json : Option JVal

/-- Outcome of the `session.post` round trip in `_send_mcp_request`: either a
`requests` exception, or a response. -/
inductive WireOutcome where
  | netExc (msg : String)
  | resp (r : HttpResponse)

/-- `BlaxelSearchMCPClient._send_mcp_request` from the moment the response
arrives: non-200 status, undecodable JSON, a dict body with an `error`
member, and type errors from the `"error" in body` test all raise. -/
def sendMcpRequest : WireOutcome → Except String JVal
  | .netExc m => .error ("Network error communicating with MCP server: " ++ m)
  | .resp r =>
    if r.status != 200 then
      .error ("HTTP " ++ toString r.status ++ ": " ++ r.text)
    else
      match r.json with
      | none => .error "Invalid JSON response from MCP server"
      | some v =>
        match pyContains v "error" with
        | .error e => .error e
        | .ok true =>
          match v with
          | .jobj fs =>
            match pyGet fs "error" with
            | .jobj efs =>
              .error ("MCP Error: " ++
                pyStr (pyGetD efs "message" (.jstr "Unknown MCP error")))
            | _ => .error "AttributeError: get"
          | _ => .error "TypeError: subscript"
        | .ok false => .ok v

/-- The body of `BlaxelSearchMCPClient.search` inside its try block: unwrap
the envelope (`result`, then `content`, then a nested `text` payload that is
parsed as JSON or falls back to freeform text) and normalize. An error is an
exception reaching the outer handler. Request construction (query, result
cap, news filter, date cutoff) only shapes the outgoing call and is not
modelled; the response is the `wire` argument. -/
def searchInner (wire : WireOutcome) (query : String) (maxResults : ℕ) :
    Except String (List SearchResult) := do
  let response ← sendMcpRequest wire
  let result_data ←
    match response with
    | .jobj fs => Except.ok (pyGetD fs "result" (.jobj []))
    | _ => Except.error "AttributeError: get"
  let hasContent ← pyContains result_data "content"
  if hasContent then
    let content ←
      match result_data with
      | .jobj fs =>
        match fs.lookup "content" with
        | some v => Except.ok v
        | none => Except.error "KeyError: content"
      | _ => Except.error "TypeError: subscript"
    match content with
    | .jarr (c0 :: rest) =>
      match c0 with
      | .jobj c0fs =>
        if (c0fs.lookup "text").isSome then
          match pyGet c0fs "text" with
          | .jstr txt =>
            match jsonLoads txt with
            | some sd => pure (parse_search_results sd maxResults)
            | none => pure (parse_text_results txt query)
          | _ => Except.error "TypeError: json.loads expects a string"
        else pure (parse_search_results (.jarr (c0 :: rest)) maxResults)
      | _ => pure (parse_search_results (.jarr (c0 :: rest)) maxResults)
    | .jstr s =>
      match jsonLoads s with
      | some sd => pure (parse_search_results sd maxResults)
      | none => pure (parse_text_results s query)
    | other => pure (parse_search_results other maxResults)
  else
    pure (parse_search_results result_data maxResults)

/-- `BlaxelSearchMCPClient.search`: the outer `except Exception` converts any
exception raised during the whole operation into an empty result list. -/
def search (wire : WireOutcome) (query : String) (maxResults : ℕ) :
    List SearchResult :=
  match searchInner wire query maxResults with
  | .ok rs => rs
  | .error _ => []

end WebSearch

/-! ## src/src/script_maker.py -/

namespace ScriptMaker

/-- The observable outcome of BeautifulSoup processing of a fetched page:
the text extracted by `get_text()` after the script/style/nav/footer/header/
aside elements were decomposed, and the `<title>` element with its string
(outer none: no title element; inner none: a title element whose `.string`
is None). -/
structure Soup where
  bodyText : String
  titleTag : Option (Option String)

/-- Outcome of one `httpx` GET in `fetch_webpage`: either some exception
(connection error, timeout, or the non-2xx error raised by
`raise_for_status`), carrying its `str(e)` message, or a parsed page. -/
inductive FetchOutcome where
  | failure (msg : String)
  | success (soup : Soup)

/-- The dict returned by `fetch_webpage`. -/
structure FetchedPage where
  url : String
  title : Option String
  content : Option String
  success : Bool
  error : Option String
deriving DecidableEq, Repr

/-- Python `str.strip()` (whitespace variant). -/
def pyStrip (s : String) : String := s.trim

/-- The whitespace cleanup of `fetch_webpage`: strip each line, split lines
on double spaces, strip the pieces, and join the non-empty pieces with
single spaces. (`splitlines` is modelled as splitting on newline.) -/
def cleanWhitespace (text : String) : String :=
  let lines := (text.splitOn "\n").map pyStrip
  let chunks := (lines.map (fun l => (l.splitOn "  ").map pyStrip)).flatten
  String.intercalate " " (chunks.filter (fun c => !(c == "")))

/-- `fetch_webpage`: on any exception a failure record carrying `str(e)`;
on success the cleaned text truncated to 15000 characters and the page
title (or "No title" when the document has no title element). Never raises:
it is total, every failure is encoded in the returned record. -/
def fetch_webpage (url : String) (outcome : FetchOutcome) : FetchedPage :=
  match outcome with
  | .failure msg =>
    { url := url, title := none, content := none, success := false
      error := some msg }
  | .success soup =>
    let text := cleanWhitespace soup.bodyText
    let title : Option String :=
      match soup.titleTag with
      | some s => s
      | none => some "No title"
    { url := url, title := title, content := some (pyTruncate text 15000)
      success := true, error := none }

/-- One request to `client.messages.create`: the completion endpoint is an
oracle `LlmCall → String`, and each synthesizer returns the calls it made
alongside its result so that call counts are observable. -/
structure LlmCall where
  model : String
  max_tokens : ℕ
  temperature : Option ℚ
  prompt : String
deriving DecidableEq, Repr

/-- Python f-string rendering of a nullable string (None prints as "None"). -/
def optStr : Option String → String
  | some s => s
  | none => "None"

/-- Python `str.replace('_', ' ')`. -/
def pyReplaceUnderscore (s : String) : String :=
  ⟨s.data.map (fun c => if c == '_' then ' ' else c)⟩

/-- Helper for `pyTitleCase`: the flag records whether the previous
character was a letter (cased). -/
def titleGo : Bool → List Char → List Char
  | _, [] => []
  | prevAlpha, c :: cs =>
    (if prevAlpha then c.toLower else c.toUpper) :: titleGo c.isAlpha cs

/-- Python `str.title()`: the first letter of every word uppercased, the
rest lowercased. -/
def pyTitleCase (s : String) : String := ⟨titleGo false s.data⟩

/-- The context block `generate_podcast_script` appends for source `i`:
a success block (title, URL, content) or a failure block (URL, error). -/
def sourceBlock (i : ℕ) (r : FetchedPage) : String :=
  if r.success then
    "## Source " ++ toString i ++ ": " ++ optStr r.title ++ "\n" ++
    "URL: " ++ r.url ++ "\n\n" ++ optStr r.content ++ "\n\n" ++ "---\n\n"
  else
    "## Source " ++ toString i ++ ": FAILED\n" ++ "URL: " ++ r.url ++ "\n" ++
    "Error: " ++ optStr r.error ++ "\n\n"

/-- The credit line appended to `source_summaries` for a successful fetch. -/
def sourceSummary (r : FetchedPage) : String :=
  "- " ++ optStr r.title ++ " (" ++ r.url ++ ")"

/-- The `for i, result in enumerate(results, 1)` loop of
`generate_podcast_script`: accumulated context text, count of successful
fetches, and the credit lines of the successful fetches. -/
def buildScriptContext : ℕ → List FetchedPage → String × ℕ × List String
  | _, [] => ("", 0, [])
  | i, r :: rs =>
    let acc := buildScriptContext (i + 1) rs
    if r.success then
      (sourceBlock i r ++ acc.1, acc.2.1 + 1, sourceSummary r :: acc.2.2)
    else
      (sourceBlock i r ++ acc.1, acc.2.1, acc.2.2)

/-- The list of per-source context blocks, numbered from `i` in order. -/
def blocksFrom : ℕ → List FetchedPage → List String
  | _, [] => []
  | i, r :: rs => sourceBlock i r :: blocksFrom (i + 1) rs

/-- Concatenation of a list of strings in order. -/
def concatBlocks (l : List String) : String := l.foldr (· ++ ·) ""

/-- The literal refusal returned when no webpage could be fetched. -/
def refusalMessage : String :=
  "Error: Failed to fetch any webpages successfully. Please check the URLs."

/-- The prompt assembled by `generate_podcast_script`. -/
def scriptPrompt (context : String) (successful_fetches : ℕ)
    (podcast_style episode_length tone target_audience : String)
    (source_summaries : List String) : String :=
  "You are a professional podcast scriptwriter. Based on the following source material from " ++
  toString successful_fetches ++ " webpages, write a complete podcast script.\n\n" ++
  context ++
  "\n\nPODCAST SPECIFICATIONS:\n- Style: " ++ podcast_style ++
  "\n- Episode Length: " ++ episode_length ++
  "\n- Tone: " ++ tone ++
  "\n- Target Audience: " ++ target_audience ++
  "\n\nSCRIPT REQUIREMENTS:\n" ++
  "1. FORMAT: Write in standard podcast script format with clear speaker labels\n" ++
  "2. NATURAL DIALOGUE: Make it sound like reading facts based on findings from research\n" ++
  "3. PACING: Include natural pauses [PAUSE], transitions, and segment breaks\n" ++
  "4. AUTHENTICITY: Make the narrator sound like they\x27re reporting based on findings\n" ++
  "5. CITATIONS: Naturally mention sources when referencing specific information\n\n" ++
  "SOURCES TO CREDIT:\n" ++ String.intercalate "\n" source_summaries ++
  "\n\nGenerate a complete, production-ready podcast script that brings this content to life in an engaging way for " ++
  target_audience ++
  ".\n\nMake sure script focuses only on delivering information. No need to add additional flair. Just information from the url and context.\n\nMake sure the script matches the " ++
  episode_length ++ " target length. \n\nWhen generating the text do not add tone cues do not try to add comments, just have the text itself.\n"

/-- The metadata wrapper around the generated script. -/
def wrapScriptResponse (podcast_style episode_length tone target_audience : String)
    (successful_fetches total : ℕ) (script_content : String)
    (source_summaries : List String) : String :=
  "# PODCAST SCRIPT GENERATED\n\n**Episode Type:** " ++
  pyTitleCase (pyReplaceUnderscore podcast_style) ++
  "\n**Length:** " ++ pyReplaceUnderscore episode_length ++
  "\n**Tone:** " ++ pyTitleCase tone ++
  "\n**Target Audience:** " ++ target_audience ++
  "\n**Sources Analyzed:** " ++ toString successful_fetches ++ "/" ++
  toString total ++
  "\n\n---\n\n" ++ script_content ++ "\n\n---\n\n**Sources Referenced:**\n" ++
  String.intercalate "\n" source_summaries ++ "\n"

/-- `generate_podcast_script`: fetch all urls (the per-url outcomes are the
`outcomes` argument, in url order, as delivered by `asyncio.gather`), build
the context, refuse without any completion call when no fetch succeeded,
otherwise make exactly one completion call and wrap its output. -/
def generate_podcast_script (urls : List String) (outcomes : List FetchOutcome)
    (llm : LlmCall → String)
    (podcast_style episode_length tone target_audience : String) :
    String × List LlmCall :=
  let results := List.zipWith fetch_webpage urls outcomes
  let acc := buildScriptContext 1 results
  let context := "# Source Material from Webpages:\n\n" ++ acc.1
  let successful_fetches := acc.2.1
  let source_summaries := acc.2.2
  if successful_fetches = 0 then (refusalMessage, [])
  else
    let prompt := scriptPrompt context successful_fetches podcast_style
      episode_length tone target_audience source_summaries
    let call : LlmCall :=
      { model := "claude-sonnet-4-20250514", max_tokens := 8000
        temperature := some (7 / 10), prompt := prompt }
    (wrapScriptResponse podcast_style episode_length tone target_audience
      successful_fetches urls.length (llm call) source_summaries, [call])

/-- The shared loop shape of the storytelling/analysis/comparison variants:
only successful fetches contribute a block and a credit line; failed
fetches are skipped entirely (no failure block, unlike
`generate_podcast_script`). -/
def buildVariantContext (block : ℕ → FetchedPage → String) :
    ℕ → List FetchedPage → String × List String
  | _, [] => ("", [])
  | i, r :: rs =>
    let acc := buildVariantContext block (i + 1) rs
    if r.success then (block i r ++ acc.1, sourceSummary r :: acc.2)
    else acc

/-- The context block of `generate_storytelling_podcast` (no URL line). -/
def storyBlock (i : ℕ) (r : FetchedPage) : String :=
  "## Source " ++ toString i ++ ": " ++ optStr r.title ++ "\n" ++
  optStr r.content ++ "\n\n---\n\n"

/-- The prompt assembled by `generate_storytelling_podcast`. -/
def storyPrompt (context narrative_style narrator_voice : String) : String :=
  "You are a master storyteller and podcast scriptwriter. Based on the following source material, create a captivating narrative podcast script.\n\n" ++
  context ++
  "\n\nNARRATIVE SPECIFICATIONS:\n- Style: " ++ narrative_style ++
  "\n- Voice: " ++ narrator_voice ++
  "\n\nSTORYTELLING REQUIREMENTS:\n" ++
  "1. Craft a compelling narrative arc (setup, rising action, climax, resolution)\n" ++
  "2. Use vivid, descriptive language that paints pictures in the listener\x27s mind\n" ++
  "3. Build suspense and maintain engagement throughout\n" ++
  "4. Include scene-setting and atmospheric descriptions\n" ++
  "5. Use pacing effectively:\n   - Short sentences for tension\n   - Longer, flowing sentences for reflection\n   - Strategic [PAUSE] markers for dramatic effect\n" ++
  "6. Incorporate direct quotes from sources where powerful\n" ++
  "7. Make the listener feel like they\x27re experiencing the story with the narrator\n" ++
  "8. Use narrative techniques:\n   - Foreshadowing (hint at what\x27s coming)\n   - Callbacks (reference earlier points with new meaning)\n   - Revelations (strategic information drops)\n" ++
  "9. Include [MUSIC CUE: description] where it would enhance the story\n\n" ++
  "Transform this information into a story that people will want to hear from beginning to end."

/-- The metadata wrapper of `generate_storytelling_podcast`. -/
def wrapStoryResponse (narrative_style narrator_voice script : String)
    (source_summaries : List String) : String :=
  "# NARRATIVE PODCAST SCRIPT\n\n**Style:** " ++
  pyTitleCase (pyReplaceUnderscore narrative_style) ++
  "\n**Voice:** " ++ pyTitleCase (pyReplaceUnderscore narrator_voice) ++
  "\n\n---\n\n" ++ script ++ "\n\n---\n\n**Sources:**\n" ++
  String.intercalate "\n" source_summaries ++ "\n"

/-- `generate_storytelling_podcast`: fetch all urls, build a context from
the successful fetches only, and unconditionally make one completion call
(there is no zero-success refusal in this variant). -/
def generate_storytelling_podcast (urls : List String)
    (outcomes : List FetchOutcome) (llm : LlmCall → String)
    (narrative_style narrator_voice : String) : String × List LlmCall :=
  let results := List.zipWith fetch_webpage urls outcomes
  let acc := buildVariantContext storyBlock 1 results
  let context := "# Story Source Material:\n\n" ++ acc.1
  let prompt := storyPrompt context narrative_style narrator_voice
  let call : LlmCall :=
    { model := "claude-sonnet-4-20250514", max_tokens := 8000
      temperature := some (4 / 5), prompt := prompt }
  (wrapStoryResponse narrative_style narrator_voice (llm call) acc.2, [call])

/-- The context block of `analyze_sources_for_podcast` (first 3000 content
characters, with an unconditional ellipsis). -/
def analyzeBlock (i : ℕ) (r : FetchedPage) : String :=
  "## Source " ++ toString i ++ ": " ++ optStr r.title ++ "\n" ++
  "URL: " ++ r.url ++ "\n\n" ++ pyTruncate (optStr r.content) 3000 ++
  "...\n\n---\n\n"

/-- The prompt assembled by `analyze_sources_for_podcast`. -/
def analyzePrompt (context podcast_type : String) : String :=
  "You are a podcast content strategist. Analyze the following sources to provide strategic recommendations for creating a " ++
  podcast_type ++ " podcast.\n\n" ++ context ++
  "\n\nANALYSIS FRAMEWORK:\nProvide a comprehensive analysis with:\n\n" ++
  "1. **MAIN THEMES**: What are the core topics across all sources? Identify 3-5 major themes.\n\n" ++
  "2. **HOOK IDEAS**: Suggest 5 compelling ways to open the podcast that will grab listeners immediately.\n\n" ++
  "3. **KEY TALKING POINTS**: List the main points to cover in order. Create a logical flow.\n\n" ++
  "4. **INTERESTING ANGLES**: What are 3-4 unique perspectives or angles that aren\x27t obvious?\n\n" ++
  "5. **POTENTIAL SEGMENTS**: How should the episode be structured? Suggest segment titles and durations.\n\n" ++
  "6. **QUESTIONS TO ADDRESS**: What would the audience want to know? List 7-10 questions.\n\n" ++
  "7. **STORYTELLING OPPORTUNITIES**: Identify specific anecdotes, examples, or narrative moments.\n\n" ++
  "8. **RECOMMENDED FORMAT**: What podcast style would work best and why?\n\n" ++
  "9. **ESTIMATED LENGTH**: Based on the depth of content, how long should this episode be?\n\n" ++
  "10. **CHALLENGES**: What concepts might be difficult to explain in audio?\n\n" ++
  "11. **PRODUCTION NOTES**: Suggestions for music, sound effects, or pacing?\n\n" ++
  "Be specific and actionable. Reference actual content from the sources."

/-- The metadata wrapper of `analyze_sources_for_podcast`. -/
def wrapAnalyzeResponse (analysis : String) (source_summaries : List String) :
    String :=
  "# PODCAST SOURCE ANALYSIS\n\n" ++ analysis ++
  "\n\n---\n\n**Sources Analyzed:**\n" ++
  String.intercalate "\n" source_summaries ++
  "\n\n---\n\nReady to generate? Use \x27generate_podcast_script\x27 with your chosen parameters based on this analysis.\n"

/-- `analyze_sources_for_podcast`: fetch all urls, build a context from the
successful fetches only, and unconditionally make one completion call
(max_tokens 4096, no temperature argument). -/
def analyze_sources_for_podcast (urls : List String)
    (outcomes : List FetchOutcome) (llm : LlmCall → String)
    (podcast_type : String) : String × List LlmCall :=
  let results := List.zipWith fetch_webpage urls outcomes
  let acc := buildVariantContext analyzeBlock 1 results
  let context := "# Content to Analyze:\n\n" ++ acc.1
  let prompt := analyzePrompt context podcast_type
  let call : LlmCall :=
    { model := "claude-sonnet-4-20250514", max_tokens := 4096
      temperature := none, prompt := prompt }
  (wrapAnalyzeResponse (llm call) acc.2, [call])

/-- The context block of `compare_sources_podcast`. -/
def compareBlock (i : ℕ) (r : FetchedPage) : String :=
  "## Source " ++ toString i ++ ": " ++ optStr r.title ++ "\n" ++
  "URL: " ++ r.url ++ "\n\n" ++ optStr r.content ++ "\n\n---\n\n"

/-- The prompt assembled by `compare_sources_podcast`. -/
def comparePrompt (context comparison_angle : String) : String :=
  "You are creating a podcast that explores " ++ comparison_angle ++
  ". \n\n" ++ context ++
  "\n\nTASK:\nCreate a podcast script that:\n\n" ++
  "1. **INTRODUCES THE LANDSCAPE**: What\x27s the topic and why do different views exist?\n\n" ++
  "2. **PRESENTS EACH PERSPECTIVE**: \n   - Fairly represent each source\x27s viewpoint\n   - Use direct quotes where powerful\n   - Explain the reasoning behind each position\n\n" ++
  "3. **COMPARES AND CONTRASTS**:\n   - Where do they agree?\n   - Where do they disagree?\n   - What are the key points of tension?\n\n" ++
  "4. **ANALYZES**:\n   - Which arguments are stronger and why?\n   - What evidence supports each side?\n\n" ++
  "5. **SYNTHESIZES**:\n   - What can we learn from examining all perspectives?\n   - Is there a middle ground?\n   - What questions remain unanswered?\n\n" ++
  "FORMAT:\n- Conversational but analytical tone\n- Include [PAUSE] for reflection moments\n- Structure with clear segments\n- 20-30 minute script length\n\n" ++
  "Make it balanced, thoughtful, and engaging."

/-- The metadata wrapper of `compare_sources_podcast`. -/
def wrapCompareResponse (comparison_angle : String) (total : ℕ)
    (script : String) (source_summaries : List String) : String :=
  "# COMPARATIVE ANALYSIS PODCAST\n\n**Comparison Focus:** " ++
  comparison_angle ++ "\n**Sources:** " ++ toString total ++
  "\n\n---\n\n" ++ script ++ "\n\n---\n\n**Sources Compared:**\n" ++
  String.intercalate "\n" source_summaries ++ "\n"

/-- `compare_sources_podcast`: fetch all urls, build a context from the
successful fetches only, and unconditionally make one completion call. -/
def compare_sources_podcast (urls : List String)
    (outcomes : List FetchOutcome) (llm : LlmCall → String)
    (comparison_angle : String) : String × List LlmCall :=
  let results := List.zipWith fetch_webpage urls outcomes
  let acc := buildVariantContext compareBlock 1 results
  let context := "# Sources to Compare:\n\n" ++ acc.1
  let prompt := comparePrompt context comparison_angle
  let call : LlmCall :=
    { model := "claude-sonnet-4-20250514", max_tokens := 8000
      temperature := some (7 / 10), prompt := prompt }
  (wrapCompareResponse comparison_angle urls.length (llm call) acc.2, [call])

end ScriptMaker

/-! ## Named views used by the statements below -/

namespace WebSearch

/-- The well-formed JSON-RPC envelope shape
`{result: {content: [{text: txt}]}}` named by the spec. -/
def textEnvelope (txt : String) : JVal :=
  .jobj [("result", .jobj [("content", .jarr [.jobj [("text", .jstr txt)]])])]

end WebSearch

namespace ScriptMaker

/-- The fetched pages of a synthesis run, in original url order
(`asyncio.gather` preserves the order of its argument list). -/
def scriptResults (urls : List String) (outs : List FetchOutcome) :
    List FetchedPage :=
  List.zipWith fetch_webpage urls outs

/-- The number of successful fetches of a synthesis run. -/
def scriptSuccessCount (urls : List String) (outs : List FetchOutcome) : ℕ :=
  (scriptResults urls outs).countP (fun r => r.success)

/-- The credit lines of the successful fetches, in original url order. -/
def scriptSummaries (urls : List String) (outs : List FetchOutcome) :
    List String :=
  ((scriptResults urls outs).filter (fun r => r.success)).map sourceSummary

/-- The context document of `generate_podcast_script`: the header followed
by one block per url, in original url order. -/
def scriptContextOf (urls : List String) (outs : List FetchOutcome) : String :=
  "# Source Material from Webpages:\n\n" ++
    concatBlocks (blocksFrom 1 (scriptResults urls outs))

/-- The single completion call `generate_podcast_script` makes when at
least one fetch succeeded. -/
def scriptCall (urls : List String) (outs : List FetchOutcome)
    (podcast_style episode_length tone target_audience : String) : LlmCall :=
  { model := "claude-sonnet-4-20250514", max_tokens := 8000
    temperature := some (7 / 10)
    prompt := scriptPrompt (scriptContextOf urls outs)
      (scriptSuccessCount urls outs) podcast_style episode_length tone
      target_audience (scriptSummaries urls outs) }

end ScriptMaker

/-! ## Helper lemmas -/

theorem append_ne_empty_right (s t : String) (h : t ≠ "") : s ++ t ≠ "" := by
  intro he
  apply h
  have hd : (s ++ t).data = [] := by rw [he]
  rw [String.data_append] at hd
  have := (List.append_eq_nil.mp hd).2
  exact String.ext this

theorem append_ne_empty_left (s t : String) (h : s ≠ "") : s ++ t ≠ "" := by
  intro he
  apply h
  have hd : (s ++ t).data = [] := by rw [he]
  rw [String.data_append] at hd
  have := (List.append_eq_nil.mp hd).1
  exact String.ext this

theorem pyNumStr_ne_empty (q : ℚ) : pyNumStr q ≠ "" := by
  unfold pyNumStr
  apply append_ne_empty_right
  split
  · decide
  · exact append_ne_empty_left _ _ (by decide)

theorem pyTruncate_length_le (s : String) (n : ℕ) :
    (pyTruncate s n).length ≤ n :=
  List.length_take_le n s.data

theorem pyTruncate_ne_empty (s : String) (n : ℕ) (hs : s ≠ "") (hn : 0 < n) :
    pyTruncate s n ≠ "" := by
  intro he
  apply hs
  have hd : (s.data.take n) = [] := by
    have h2 : (pyTruncate s n).data = [] := by rw [he]
    exact h2
  rcases List.take_eq_nil_iff.mp hd with h | h
  · omega
  · exact String.ext h

theorem pyStr_truthy_ne_empty (v : JVal) (h : v.truthy = true) : pyStr v ≠ "" := by
  cases v with
  | jnull => simp [JVal.truthy] at h
  | jbool b =>
    cases b
    · simp [JVal.truthy] at h
    · decide
  | jnum q =>
    show pyRepr (.jnum q) ≠ ""
    rw [show pyRepr (.jnum q) = pyNumStr q from rfl]
    exact pyNumStr_ne_empty q
  | jstr s =>
    show s ≠ ""
    simpa [JVal.truthy] using h
  | jarr xs =>
    show pyRepr (.jarr xs) ≠ ""
    rw [show pyRepr (.jarr xs) = "[" ++ pyReprSeq xs ++ "]" from rfl]
    exact append_ne_empty_right _ _ (by decide)
  | jobj fs =>
    show pyRepr (.jobj fs) ≠ ""
    rw [show pyRepr (.jobj fs) = "\x7b" ++ pyReprFields fs ++ "\x7d" from rfl]
    exact append_ne_empty_right _ _ (by decide)

theorem pyOr_truthy_of_right (a b : JVal) (hb : b.truthy = true) :
    (pyOr a b).truthy = true := by
  unfold pyOr
  split
  · assumption
  · exact hb

theorem titleChain_truthy (item : List (String × JVal)) :
    (WebSearch.titleChain item).truthy = true :=
  pyOr_truthy_of_right _ _ (by decide)

namespace ScriptMaker

theorem buildScriptContext_eq (i : ℕ) (rs : List FetchedPage) :
    buildScriptContext i rs =
      (concatBlocks (blocksFrom i rs),
       rs.countP (fun r => r.success),
       (rs.filter (fun r => r.success)).map sourceSummary) := by
  induction rs generalizing i with
  | nil => rfl
  | cons r rs ih =>
    simp only [buildScriptContext, blocksFrom, concatBlocks, ih,
      List.countP_cons, List.filter_cons, List.foldr_cons]
    by_cases h : r.success
    · simp [h]
    · simp [h]

theorem blocksFrom_length (i : ℕ) (rs : List FetchedPage) :
    (blocksFrom i rs).length = rs.length := by
  induction rs generalizing i with
  | nil => rfl
  | cons r rs ih => simp [blocksFrom, ih]

theorem blocksFrom_getElem (j i : ℕ) (rs : List FetchedPage) :
    (blocksFrom j rs)[i]? = (rs[i]?).map (fun r => sourceBlock (j + i) r) := by
  induction rs generalizing j i with
  | nil => simp [blocksFrom]
  | cons r rs ih =>
    cases i with
    | zero => simp [blocksFrom]
    | succ i =>
      simp only [blocksFrom, List.getElem?_cons_succ, ih (j + 1) i]
      rw [show j + 1 + i = j + (i + 1) by omega]

theorem buildVariantContext_of_no_success (block : ℕ → FetchedPage → String)
    (i : ℕ) (rs : List FetchedPage) (h : ∀ r ∈ rs, r.success = false) :
    buildVariantContext block i rs = ("", []) := by
  induction rs generalizing i with
  | nil => rfl
  | cons r rs ih =>
    have hr : r.success = false := h r (by simp)
    simp only [buildVariantContext, ih (i + 1) (fun x hx => h x (by simp [hx])), hr]
    simp

theorem generate_refusal_of_no_success (urls : List String)
    (outs : List FetchOutcome) (llm : LlmCall → String)
    (s l t a : String)
    (h : (List.zipWith fetch_webpage urls outs).countP (fun r => r.success) = 0) :
    generate_podcast_script urls outs llm s l t a = (refusalMessage, []) := by
  simp only [generate_podcast_script, buildScriptContext_eq]
  simp [h]

theorem generate_script_of_success (urls : List String)
    (outs : List FetchOutcome) (llm : LlmCall → String)
    (s l t a : String)
    (h : 1 ≤ (List.zipWith fetch_webpage urls outs).countP (fun r => r.success)) :
    generate_podcast_script urls outs llm s l t a =
      (wrapScriptResponse s l t a (scriptSuccessCount urls outs) urls.length
        (llm (scriptCall urls outs s l t a)) (scriptSummaries urls outs),
       [scriptCall urls outs s l t a]) := by
  simp only [generate_podcast_script, buildScriptContext_eq, scriptCall,
    scriptContextOf, scriptSuccessCount, scriptSummaries, scriptResults]
  rw [if_neg (by omega)]

theorem storytelling_one_call (urls : List String) (outs : List FetchOutcome)
    (llm : LlmCall → String) (ns nv : String) :
    (generate_storytelling_podcast urls outs llm ns nv).2.length = 1 := rfl

theorem analyze_one_call (urls : List String) (outs : List FetchOutcome)
    (llm : LlmCall → String) (pt : String) :
    (analyze_sources_for_podcast urls outs llm pt).2.length = 1 := rfl

theorem compare_one_call (urls : List String) (outs : List FetchOutcome)
    (llm : LlmCall → String) (ca : String) :
    (compare_sources_podcast urls outs llm ca).2.length = 1 := rfl

end ScriptMaker

/-! ## Claims -/

open ScriptMaker in
/-- C1: for every request whose urls yield zero successful fetches,
`generate_podcast_script` returns the literal refusal string
"Error: Failed to fetch any webpages successfully. Please check the URLs."
and makes no completion call to the LLM service (the list of completion
calls it performs is empty). -/
theorem C1_zero_success_refusal (urls : List String)
    (outs : List FetchOutcome) (llm : LlmCall → String)
    (podcast_style episode_length tone target_audience : String)
    (h : (List.zipWith fetch_webpage urls outs).countP (fun r => r.success) = 0) :
    generate_podcast_script urls outs llm podcast_style episode_length tone
        target_audience =
      ("Error: Failed to fetch any webpages successfully. Please check the URLs.",
       []) :=
  generate_refusal_of_no_success urls outs llm podcast_style episode_length
    tone target_audience h

/-- Witness for C1 at a concrete request whose two fetches both fail. -/
theorem C1_zero_success_refusal_witness :
    ScriptMaker.generate_podcast_script
        ["https://a.example", "https://b.example"]
        [.failure "timeout", .failure "connection refused"]
        (fun _ => "SCRIPT") "solo_narrative" "medium_15_25_min" "casual"
        "general audience" =
      ("Error: Failed to fetch any webpages successfully. Please check the URLs.",
       []) :=
  C1_zero_success_refusal _ _ _ _ _ _ _ (by decide)

open ScriptMaker in
/-- C2 counterexample: the claim says every synthesizer variant returns the
refusal message and makes no completion call when zero fetches succeed.
`generate_storytelling_podcast`, run on one url whose fetch fails (zero
successes), nevertheless performs one completion call and returns the
wrapped story, not the refusal message. -/
theorem C2_counterexample_storytelling_calls_llm :
    (generate_storytelling_podcast ["https://a.example"] [.failure "boom"]
        (fun _ => "STORY") "documentary" "third_person_omniscient").2.length = 1 ∧
    (generate_storytelling_podcast ["https://a.example"] [.failure "boom"]
        (fun _ => "STORY") "documentary" "third_person_omniscient").1 ≠
      refusalMessage := by
  refine ⟨rfl, by decide⟩

open ScriptMaker in
/-- C2 amended: the four variants share the concurrent fetch fan-out, but
not the error-aggregation contract. Only `generate_podcast_script` refuses
without a completion call when zero fetches succeed and records per-url
failures inline in its context; the storytelling, analysis and comparison
variants each make exactly one completion call regardless of fetch
outcomes, and a run with no successful fetch leaves their context body
empty (failed fetches are skipped, not recorded). -/
theorem C2_amended_variant_contract :
    (∀ urls outs llm ns nv,
      (generate_storytelling_podcast urls outs llm ns nv).2.length = 1) ∧
    (∀ urls outs llm pt,
      (analyze_sources_for_podcast urls outs llm pt).2.length = 1) ∧
    (∀ urls outs llm ca,
      (compare_sources_podcast urls outs llm ca).2.length = 1) ∧
    (∀ urls outs llm s l t a,
      (List.zipWith fetch_webpage urls outs).countP (fun r => r.success) = 0 →
      generate_podcast_script urls outs llm s l t a = (refusalMessage, [])) ∧
    (∀ block i rs, (∀ r ∈ rs, r.success = false) →
      buildVariantContext block i rs = ("", [])) :=
  ⟨storytelling_one_call, analyze_one_call, compare_one_call,
   fun urls outs llm s l t a h =>
     generate_refusal_of_no_success urls outs llm s l t a h,
   buildVariantContext_of_no_success⟩

/-- Witness for the amended C2 at concrete inputs. -/
theorem C2_amended_variant_contract_witness :
    (ScriptMaker.generate_storytelling_podcast ["https://a.example"]
        [.failure "boom"] (fun _ => "S") "documentary" "first_person").2.length = 1 ∧
    ScriptMaker.generate_podcast_script ["https://a.example"] [.failure "boom"]
        (fun _ => "S") "solo_narrative" "short_5_10_min" "casual" "kids" =
      (ScriptMaker.refusalMessage, []) ∧
    ScriptMaker.buildVariantContext ScriptMaker.storyBlock 1
        [ScriptMaker.fetch_webpage "https://a.example" (.failure "boom")] =
      ("", []) := by
  have h := C2_amended_variant_contract
  exact ⟨h.1 _ _ _ _ _, h.2.2.2.1 _ _ _ _ _ _ _ (by decide),
    h.2.2.2.2 _ _ _ (by decide)⟩

open ScriptMaker in
/-- C3: with at least one successful fetch, `generate_podcast_script`
produces a script: it makes exactly one completion call (`scriptCall`) and
returns the wrapped completion output. Its context document consists of a
header followed by one block per url in the original input order — block i
is the success block (title, URL, content) of page i when its fetch
succeeded and the failure block (URL, error) otherwise — so source
numbering matches the original url order, not fetch-completion order. -/
theorem C3_script_with_blocks_in_order (urls : List String)
    (outs : List FetchOutcome) (llm : LlmCall → String)
    (podcast_style episode_length tone target_audience : String)
    (hlen : outs.length = urls.length)
    (hk : 1 ≤ (List.zipWith fetch_webpage urls outs).countP (fun r => r.success)) :
    generate_podcast_script urls outs llm podcast_style episode_length tone
        target_audience =
      (wrapScriptResponse podcast_style episode_length tone target_audience
        (scriptSuccessCount urls outs) urls.length
        (llm (scriptCall urls outs podcast_style episode_length tone
          target_audience))
        (scriptSummaries urls outs),
       [scriptCall urls outs podcast_style episode_length tone
         target_audience]) ∧
    scriptContextOf urls outs =
      "# Source Material from Webpages:\n\n" ++
        concatBlocks (blocksFrom 1 (scriptResults urls outs)) ∧
    (blocksFrom 1 (scriptResults urls outs)).length = urls.length ∧
    (∀ i : ℕ, (blocksFrom 1 (scriptResults urls outs))[i]? =
      ((scriptResults urls outs)[i]?).map (fun r => sourceBlock (i + 1) r)) ∧
    (∀ i : ℕ, (scriptResults urls outs)[i]? =
      (urls[i]?).bind (fun u => (outs[i]?).map (fun o => fetch_webpage u o))) := by
  refine ⟨generate_script_of_success urls outs llm _ _ _ _ hk, rfl, ?_, ?_, ?_⟩
  · rw [blocksFrom_length]
    simp [scriptResults, List.length_zipWith, hlen]
  · intro i
    rw [blocksFrom_getElem]
    simp [Nat.add_comm]
  · intro i
    simp only [scriptResults, List.getElem?_zipWith]
    cases urls[i]? <;> cases outs[i]? <;> rfl

/-- Witness for C3: two urls, the first fetch fails, the second succeeds;
one completion call is made and there is one context block per url. -/
theorem C3_script_with_blocks_in_order_witness :
    (ScriptMaker.generate_podcast_script
        ["https://a.example", "https://b.example"]
        [.failure "boom",
         .success ⟨"Hello  world\nSecond line", some (some "Title B")⟩]
        (fun _ => "S") "solo_narrative" "medium_15_25_min" "casual"
        "general audience").2.length = 1 ∧
    (ScriptMaker.blocksFrom 1 (ScriptMaker.scriptResults
        ["https://a.example", "https://b.example"]
        [.failure "boom",
         .success ⟨"Hello  world\nSecond line", some (some "Title B")⟩])).length = 2 := by
  have h := C3_script_with_blocks_in_order
    ["https://a.example", "https://b.example"]
    [.failure "boom",
     .success ⟨"Hello  world\nSecond line", some (some "Title B")⟩]
    (fun _ => "S") "solo_narrative" "medium_15_25_min" "casual"
    "general audience" rfl (by decide)
  constructor
  · rw [h.1]
    rfl
  · rw [h.2.2.1]
    rfl

open ScriptMaker in
/-- C7: `fetch_webpage` never raises (it is a total function of the fetch
outcome); on any failure — network error, timeout, non-2xx status raised by
raise_for_status, unreachable host — it returns a FetchedPage with
success = false, content null, and error = str(e); the error string is
non-empty whenever the exception message is. -/
theorem C7_fetch_failure_contract (url msg : String) (h : msg ≠ "") :
    (fetch_webpage url (.failure msg)).success = false ∧
    (fetch_webpage url (.failure msg)).content = none ∧
    (fetch_webpage url (.failure msg)).title = none ∧
    (fetch_webpage url (.failure msg)).url = url ∧
    ∃ e, (fetch_webpage url (.failure msg)).error = some e ∧ e ≠ "" :=
  ⟨rfl, rfl, rfl, rfl, msg, rfl, h⟩

/-- Witness for C7 at a concrete unreachable-host failure. -/
theorem C7_fetch_failure_contract_witness :
    (ScriptMaker.fetch_webpage "https://unreachable.invalid"
        (.failure "All connection attempts failed")).success = false ∧
    (ScriptMaker.fetch_webpage "https://unreachable.invalid"
        (.failure "All connection attempts failed")).content = none ∧
    ∃ e, (ScriptMaker.fetch_webpage "https://unreachable.invalid"
        (.failure "All connection attempts failed")).error = some e ∧ e ≠ "" := by
  have h := C7_fetch_failure_contract "https://unreachable.invalid"
    "All connection attempts failed" (by decide)
  exact ⟨h.1, h.2.1, h.2.2.2.2⟩

namespace WebSearch

theorem searchInner_textEnvelope (st q txt : String) (m : ℕ) :
    searchInner (.resp ⟨200, st, some (textEnvelope txt)⟩) q m =
      (match jsonLoads txt with
       | some sd => pure (parse_search_results sd m)
       | none => pure (parse_text_results txt q)) := rfl

end WebSearch

namespace WebSearch

theorem search_textEnvelope_parsed (st q txt : String) (m : ℕ)
    (hits : List JVal) (hj : jsonLoads txt = some (.jarr hits)) :
    search (.resp ⟨200, st, some (textEnvelope txt)⟩) q m =
      (hits.take m).filterMap createFromVal := by
  unfold search
  rw [searchInner_textEnvelope, hj]
  rfl

theorem search_textEnvelope_freeform (st q txt : String) (m : ℕ)
    (hj : jsonLoads txt = none) :
    search (.resp ⟨200, st, some (textEnvelope txt)⟩) q m =
      parse_text_results txt q := by
  unfold search
  rw [searchInner_textEnvelope, hj]
  rfl

theorem create_search_result_fields (item : List (String × JVal))
    (r : SearchResult) (h : create_search_result item = some r) :
    r.title = pyTruncate (pyStr (titleChain item)) 200 ∧
    r.url = pyStr (urlChain item) ∧
    r.description = pyTruncate (pyStr (descChain item)) 300 ∧
    (urlChain item).truthy = true ∧ (titleChain item).truthy = true ∧
    relScoreOf item = some r.relevance_score := by
  unfold create_search_result at h
  cases hrel : relScoreOf item with
  | none => rw [hrel] at h; cases h
  | some sc =>
    simp only [hrel] at h
    by_cases hc : ((urlChain item).truthy && (titleChain item).truthy) = true
    · rw [if_pos hc] at h
      have hr := Option.some.inj h
      have hand : (urlChain item).truthy = true ∧ (titleChain item).truthy = true := by
        simpa [Bool.and_eq_true] using hc
      subst hr
      exact ⟨rfl, rfl, rfl, hand.1, hand.2, rfl⟩
    · rw [if_neg hc] at h
      cases h

theorem searchInner_error_of_send (w : WireOutcome) (q : String) (m : ℕ)
    (e : String) (h : sendMcpRequest w = .error e) :
    searchInner w q m = .error e := by
  unfold searchInner
  rw [h]
  rfl

end WebSearch

open WebSearch in
/-- C4 counterexample: the claim says every SearchResult returned by
`search`, including the degraded result produced from freeform text, has a
non-empty url. A well-formed envelope whose nested text is not JSON yields
exactly one degraded result, and its url is the empty string. -/
theorem C4_counterexample_degraded_empty_url :
    (search (.resp ⟨200, "", some (textEnvelope "Freeform notes about the topic")⟩)
        "ai news" 10).length = 1 ∧
    ∀ r ∈ search (.resp ⟨200, "", some (textEnvelope "Freeform notes about the topic")⟩)
        "ai news" 10, r.url = "" := by
  exact ⟨rfl, by decide⟩

open WebSearch in
/-- C4 amended: every SearchResult produced by structured-hit normalization
(`_create_search_result`) has a non-empty title and a non-empty url, with
title at most 200 characters and description at most 300 characters. The
degraded result produced from freeform text does not satisfy this: it has
an empty url (and its description may reach 303 characters, its title — not
truncated — is "Search results for: " followed by the query). -/
theorem C4_amended_result_invariants :
    (∀ item r, create_search_result item = some r →
      r.title ≠ "" ∧ r.url ≠ "" ∧ r.title.length ≤ 200 ∧
      r.description.length ≤ 300) ∧
    (∀ text query r, r ∈ parse_text_results text query →
      r.url = "" ∧ r.title = "Search results for: " ++ query ∧
      r.description.length ≤ 303) := by
  constructor
  · intro item r h
    obtain ⟨ht, hu, hd, hut, htt, _⟩ := create_search_result_fields item r h
    refine ⟨?_, ?_, ?_, ?_⟩
    · rw [ht]
      exact pyTruncate_ne_empty _ _ (pyStr_truthy_ne_empty _ htt) (by omega)
    · rw [hu]
      exact pyStr_truthy_ne_empty _ hut
    · rw [ht]
      exact pyTruncate_length_le _ _
    · rw [hd]
      exact pyTruncate_length_le _ _
  · intro text query r h
    have hr : r = (⟨"Search results for: " ++ query, "",
        pyTruncate text 300 ++ (if 300 < text.length then "..." else ""),
        1 / 2⟩ : SearchResult) := List.mem_singleton.mp h
    subst hr
    refine ⟨rfl, rfl, ?_⟩
    show (pyTruncate text 300 ++ (if 300 < text.length then "..." else "")).length ≤ 303
    rw [String.length_append]
    have h1 := pyTruncate_length_le text 300
    by_cases hc : 300 < text.length
    · rw [if_pos hc]
      have : ("..." : String).length = 3 := rfl
      omega
    · rw [if_neg hc]
      have : ("" : String).length = 0 := rfl
      omega

/-- Witness for the amended C4 at a concrete hit and a concrete freeform
text. -/
theorem C4_amended_result_invariants_witness :
    ((⟨"T", "https://a.example", "", 0⟩ : WebSearch.SearchResult).title ≠ "" ∧
     (⟨"T", "https://a.example", "", 0⟩ : WebSearch.SearchResult).url ≠ "" ∧
     (⟨"T", "https://a.example", "", 0⟩ : WebSearch.SearchResult).title.length ≤ 200 ∧
     (⟨"T", "https://a.example", "", 0⟩ : WebSearch.SearchResult).description.length ≤ 300) ∧
    ((⟨"Search results for: " ++ "q", "", pyTruncate "hello" 300 ++
        (if 300 < ("hello" : String).length then "..." else ""),
        1 / 2⟩ : WebSearch.SearchResult).url = "" ∧
     (⟨"Search results for: " ++ "q", "", pyTruncate "hello" 300 ++
        (if 300 < ("hello" : String).length then "..." else ""),
        1 / 2⟩ : WebSearch.SearchResult).title = "Search results for: " ++ "q" ∧
     (⟨"Search results for: " ++ "q", "", pyTruncate "hello" 300 ++
        (if 300 < ("hello" : String).length then "..." else ""),
        1 / 2⟩ : WebSearch.SearchResult).description.length ≤ 303) := by
  have h := C4_amended_result_invariants
  exact ⟨h.1 [("title", .jstr "T"), ("url", .jstr "https://a.example")] _ (by decide),
    h.2 "hello" "q" _ (List.mem_singleton.mpr rfl)⟩

open WebSearch in
/-- C5: for a well-formed JSON-RPC response shaped
`{result:{content:[{text: <JSON array of hit objects>}]}}` whose array fits
in the cap, `search` returns one SearchResult per valid hit (the
normalization of each hit, in order); each produced result carries the
title/url/description extracted through the synonym chains, with title
capped at 200 and description at 300 characters; a hit missing both
title-like and url-like fields is dropped; a hit with a url but only a
`snippet` field gets its description populated from `snippet`. -/
theorem C5_wellformed_envelope_normalization (q st txt : String) (m : ℕ)
    (hits : List JVal) (hj : jsonLoads txt = some (.jarr hits))
    (hm : hits.length ≤ m) :
    search (.resp ⟨200, st, some (textEnvelope txt)⟩) q m =
      hits.filterMap createFromVal ∧
    (∀ fs r, create_search_result fs = some r →
      r.title = pyTruncate (pyStr (titleChain fs)) 200 ∧
      r.url = pyStr (urlChain fs) ∧
      r.description = pyTruncate (pyStr (descChain fs)) 300) ∧
    (∀ fs : List (String × JVal), fs.lookup "title" = none →
      fs.lookup "name" = none → fs.lookup "heading" = none →
      fs.lookup "url" = none → fs.lookup "link" = none →
      fs.lookup "href" = none → create_search_result fs = none) ∧
    (∀ (fs : List (String × JVal)) (s : String) (sc : ℚ),
      fs.lookup "description" = none →
      fs.lookup "snippet" = some (.jstr s) → s ≠ "" →
      relScoreOf fs = some sc → (urlChain fs).truthy = true →
      ∃ r, create_search_result fs = some r ∧
        r.description = pyTruncate s 300) := by
  refine ⟨?_, ?_, ?_, ?_⟩
  · rw [search_textEnvelope_parsed st q txt m hits hj,
      List.take_of_length_le hm]
  · intro fs r h
    obtain ⟨h1, h2, h3, _⟩ := create_search_result_fields fs r h
    exact ⟨h1, h2, h3⟩
  · intro fs h1 h2 h3 h4 h5 h6
    have hu : urlChain fs = .jstr "" := by
      simp [urlChain, pyGet, h4, h5, h6, pyOr, JVal.truthy]
    unfold create_search_result
    cases hrel : relScoreOf fs with
    | none => rfl
    | some sc => simp [hu, JVal.truthy]
  · intro fs s sc hdesc hsnip hs hrel hurl
    have hbe : (s == "") = false := by
      rw [beq_eq_false_iff_ne]
      exact hs
    have hd : descChain fs = .jstr s := by
      simp [descChain, pyGet, hdesc, hsnip, pyOr, JVal.truthy, hbe]
    refine ⟨⟨pyTruncate (pyStr (titleChain fs)) 200, pyStr (urlChain fs),
      pyTruncate (pyStr (descChain fs)) 300, sc⟩, ?_, ?_⟩
    · unfold create_search_result
      simp only [hrel]
      rw [if_pos (by simp [hurl, titleChain_truthy])]
    · rw [show (⟨pyTruncate (pyStr (titleChain fs)) 200, pyStr (urlChain fs),
        pyTruncate (pyStr (descChain fs)) 300, sc⟩ :
          SearchResult).description =
        pyTruncate (pyStr (descChain fs)) 300 from rfl, hd]
      rfl

/-- Witness for C5 at a concrete two-hit envelope; the second hit exercises
the link/snippet synonym fallbacks, and drop/snippet sub-properties are
instantiated on concrete hits. -/
theorem C5_wellformed_envelope_normalization_witness :
    WebSearch.search (.resp ⟨200, "", some (WebSearch.textEnvelope
        "[\x7b\"url\": \"https://a.example\", \"title\": \"Alpha\"\x7d, \x7b\"link\": \"https://b.example\", \"snippet\": \"Beta snip\"\x7d]")⟩)
        "q" 10 =
      [⟨"Alpha", "https://a.example", "", 0⟩,
       ⟨"Search Result", "https://b.example", "Beta snip", 0⟩] ∧
    WebSearch.create_search_result [("foo", .jstr "bar")] = none ∧
    ∃ r, WebSearch.create_search_result
        [("url", .jstr "https://c.example"), ("snippet", .jstr "Snip")] =
          some r ∧
      r.description = pyTruncate "Snip" 300 := by
  have h := C5_wellformed_envelope_normalization "q" ""
    "[\x7b\"url\": \"https://a.example\", \"title\": \"Alpha\"\x7d, \x7b\"link\": \"https://b.example\", \"snippet\": \"Beta snip\"\x7d]"
    10
    [.jobj [("url", .jstr "https://a.example"), ("title", .jstr "Alpha")],
     .jobj [("link", .jstr "https://b.example"), ("snippet", .jstr "Beta snip")]]
    rfl (by decide)
  refine ⟨?_, ?_, ?_⟩
  · rw [h.1]
    decide
  · exact h.2.2.1 _ rfl rfl rfl rfl rfl rfl
  · exact h.2.2.2 _ "Snip" 0 rfl rfl (by decide) rfl (by decide)

open WebSearch in
/-- C6: `search` never raises past its own boundary: a network exception, a
non-200 status, an undecodable (non-JSON) body, a non-dict scalar payload
(whose `"error" in body` membership test raises TypeError), and in general
any exception inside the try block (any `searchInner` error) all produce
the empty result list. -/
theorem C6_search_never_raises :
    (∀ q m msg, search (.netExc msg) q m = []) ∧
    (∀ q m r, r.status ≠ 200 → search (.resp r) q m = []) ∧
    (∀ q m st, search (.resp ⟨200, st, none⟩) q m = []) ∧
    (∀ q m st, search (.resp ⟨200, st, some (.jnum 5)⟩) q m = []) ∧
    (∀ w q m e, searchInner w q m = .error e → search w q m = []) := by
  have hin : ∀ w q m e, searchInner w q m = .error e → search w q m = [] := by
    intro w q m e h
    unfold search
    rw [h]
  refine ⟨fun q m msg => rfl, ?_, fun q m st => rfl, fun q m st => rfl, hin⟩
  intro q m r h
  have hsend : sendMcpRequest (.resp r) =
      .error ("HTTP " ++ toString r.status ++ ": " ++ r.text) := by
    simp only [sendMcpRequest]
    rw [if_pos (by simpa [bne_iff_ne] using h)]
  exact hin _ _ _ _ (searchInner_error_of_send (.resp r) q m _ hsend)

/-- Witness for C6 at concrete failure payloads. -/
theorem C6_search_never_raises_witness :
    WebSearch.search (.netExc "Connection refused") "ai" 5 = [] ∧
    WebSearch.search (.resp ⟨500, "Internal Server Error", none⟩) "ai" 5 = [] ∧
    WebSearch.search (.resp ⟨200, "this body is not json", none⟩) "ai" 5 = [] := by
  have h := C6_search_never_raises
  exact ⟨h.1 _ _ _, h.2.1 "ai" 5 ⟨500, "Internal Server Error", none⟩ (by decide),
    h.2.2.1 "ai" 5 "this body is not json"⟩

open WebSearch in
/-- C8 counterexample: the claim says relevanceScore is the numeric value
of the relevance_score field whenever that field is present. For a hit with
`relevance_score: 0.0` and `score: 2.0` the falsy-OR fallback returns 2,
not 0: the present relevance_score field is overridden. -/
theorem C8_counterexample_falsy_or :
    create_search_result
        [("title", .jstr "t"), ("url", .jstr "u"),
         ("relevance_score", .jnum 0), ("score", .jnum 2)] =
      some ⟨"t", "u", "", 2⟩ ∧
    pyGetD [("title", JVal.jstr "t"), ("url", JVal.jstr "u"),
        ("relevance_score", JVal.jnum 0), ("score", JVal.jnum 2)]
        "relevance_score" (.jnum 0) = .jnum 0 ∧
    (2 : ℚ) ≠ 0 := by
  refine ⟨by decide, rfl, by norm_num⟩

open WebSearch in
/-- C8 amended: the relevanceScore of a produced SearchResult is
float(relevance_score or 0.0) when that value is nonzero, and otherwise
float(score or 0.0) — a present relevance_score of 0.0 is overridden by the
score field (the falsy-OR fallback flagged in the design notes). -/
theorem C8_amended_falsy_or_fallback (fs : List (String × JVal))
    (r : SearchResult) (h : create_search_result fs = some r) :
    ∃ a, pyFloat (pyGetD fs "relevance_score" (.jnum 0)) = some a ∧
      ((a ≠ 0 ∧ r.relevance_score = a) ∨
       (a = 0 ∧ ∃ b, pyFloat (pyGetD fs "score" (.jnum 0)) = some b ∧
         r.relevance_score = b)) := by
  have hrel := (create_search_result_fields fs r h).2.2.2.2.2
  unfold relScoreOf at hrel
  cases ha : pyFloat (pyGetD fs "relevance_score" (.jnum 0)) with
  | none =>
    simp only [ha] at hrel
    cases hrel
  | some a =>
    simp only [ha] at hrel
    by_cases h0 : a = 0
    · subst h0
      simp only [beq_self_eq_true, if_true] at hrel
      exact ⟨0, rfl, Or.inr ⟨rfl, r.relevance_score, hrel, rfl⟩⟩
    · have hbe : (a == 0) = false := by
        rw [beq_eq_false_iff_ne]
        exact h0
      simp only [hbe, Bool.false_eq_true, if_false] at hrel
      exact ⟨a, rfl, Or.inl ⟨h0, (Option.some.inj hrel).symm⟩⟩

/-- Witness for the amended C8 at a hit with a nonzero relevance_score. -/
theorem C8_amended_falsy_or_fallback_witness :
    ∃ a, pyFloat (pyGetD [("title", JVal.jstr "t"), ("url", JVal.jstr "u"),
        ("relevance_score", JVal.jnum 3)] "relevance_score" (.jnum 0)) =
      some a ∧
      ((a ≠ 0 ∧ (⟨"t", "u", "", 3⟩ : WebSearch.SearchResult).relevance_score = a) ∨
       (a = 0 ∧ ∃ b, pyFloat (pyGetD [("title", JVal.jstr "t"),
           ("url", JVal.jstr "u"), ("relevance_score", JVal.jnum 3)] "score"
           (.jnum 0)) = some b ∧
         (⟨"t", "u", "", 3⟩ : WebSearch.SearchResult).relevance_score = b)) :=
  C8_amended_falsy_or_fallback _ _ (by decide)

open WebSearch in
/-- C9: when the relevance computation raises — the relevance_score (or
score) field holds a value float() cannot convert, such as the string
"high" — the whole hit is dropped (`_create_search_result` returns None),
even when url and title are present and non-empty; the score does not
default to 0.0. The second conjunct shows the conversion of the concrete
hit with relevance_score "high" raising. -/
theorem C9_nonconvertible_score_drops_hit :
    (∀ fs, relScoreOf fs = none → create_search_result fs = none) ∧
    relScoreOf [("title", .jstr "t"), ("url", .jstr "https://u.example"),
      ("relevance_score", .jstr "high")] = none := by
  constructor
  · intro fs h
    unfold create_search_result
    rw [h]
  · rfl

/-- Witness for C9: the concrete hit with a non-numeric relevance_score and
valid url/title yields no SearchResult. -/
theorem C9_nonconvertible_score_drops_hit_witness :
    WebSearch.create_search_result [("title", .jstr "t"),
      ("url", .jstr "https://u.example"),
      ("relevance_score", .jstr "high")] = none :=
  C9_nonconvertible_score_drops_hit.1 _ C9_nonconvertible_score_drops_hit.2

open WebSearch in
/-- C10: `_parse_search_results` applies the `[:max_results]` slice to the
raw hit list before validity filtering, for the results, links and
bare-list shapes alike; consequently a payload of two hits whose first hit
is invalid yields zero results at maxResults = 1 even though a valid hit
exists beyond the cap (last two conjuncts). -/
theorem C10_cap_before_filter (hits : List JVal) (m : ℕ) :
    parse_search_results (.jobj [("results", .jarr hits)]) m =
      (hits.take m).filterMap createFromVal ∧
    parse_search_results (.jobj [("links", .jarr hits)]) m =
      (hits.take m).filterMap createFromVal ∧
    parse_search_results (.jarr hits) m =
      (hits.take m).filterMap createFromVal ∧
    parse_search_results (.jobj [("results", .jarr
      [.jobj [("title", .jstr "missing url")],
       .jobj [("title", .jstr "good"),
         ("url", .jstr "https://good.example")]])]) 1 = [] ∧
    createFromVal (.jobj [("title", .jstr "good"),
      ("url", .jstr "https://good.example")]) =
      some ⟨"good", "https://good.example", "", 0⟩ :=
  ⟨rfl, rfl, rfl, by decide, by decide⟩
